import Mathlib

/-!
# Verification of the appointment booking engine

Shallow embedding of the slot-availability and booking-conflict logic of the
Medicare appointment service (src/appointment.js, src/google.js, src/Doctor.js,
src/Patient.js) together with proofs about the claims on its specification.

Conventions of the embedding:
* Times are minutes.  Every interval the code compares lives on one day with one
  fixed UTC offset (+05:30), so comparing the absolute instants obtained from
  the ISO strings is the same as comparing minutes since midnight of that day.
* Mongoose documents become plain structures holding exactly the fields the
  formalised claims inspect; fields the claims never read (googleEventId,
  paymentStatus, reason, appointmentType, consultationFee, ...) are omitted.
* The persistence collaborator becomes explicit list-valued stores passed in
  and out of each operation; Mongoose findOne / find / save become list search,
  filter and append/replace over those stores, with the query conditions
  written exactly as in the source.
* Randomness (uuidv4) is passed in as an explicit identifier argument.
-/

/-- A half-open-compared time interval, minutes.  Mirrors the pairs of instants
the code compares (busy periods from the calendar, slot bounds, appointment
startDateTime/endDateTime). -/
structure TimeInterval where
  start : Nat
  «end» : Nat
deriving DecidableEq

/-- The persisted appointment record: the fields of appointmentSchema that the
formalised routes read or write, plus startDateTime/endDateTime which the
booking route stores and queries.  The schema default for status is "Booked"
(src/appointment.js line 9). -/
structure Appointment where
  appointmentId : String
  patientId : String
  doctorId : String
  date : String
  startDateTime : Nat
  endDateTime : Nat
  status : String := "Booked"
deriving DecidableEq

/-- Per-weekday availability window of a doctor, after splitting the "HH:MM"
start/end strings on the colon as generateAvailableSlots does. -/
structure DayAvail where
  available : Bool
  startHour : Nat
  startMinute : Nat
  endHour : Nat
  endMinute : Nat
deriving DecidableEq

/-- The doctor record fields read by the formalised routes. -/
structure Doctor where
  doctorId : String
  calendarId : Option String
  availability : List (String × DayAvail)
deriving DecidableEq

/-- The patient record fields read or written by the booking route. -/
structure Patient where
  patientId : String
  name : String
  email : Option String
  phone : Option String
deriving DecidableEq

/-- The two mutable stores of the persistence collaborator. -/
structure DB where
  patients : List Patient
  appointments : List Appointment
deriving DecidableEq

/-- isSlotConflicting (src/appointment.js lines 297-320): a slot conflicts iff
it strictly overlaps some busy period or some of the given appointments, with
the half-open test start1 < end2 and end1 > start2. -/
def isSlotConflicting (slotStart slotEnd : Nat) (busyPeriods : List TimeInterval)
    (existingAppointments : List Appointment) : Bool :=
  busyPeriods.any (fun busy => decide (slotStart < busy.«end») && decide (slotEnd > busy.start)) ||
  existingAppointments.any (fun appointment =>
    decide (slotStart < appointment.endDateTime) && decide (slotEnd > appointment.startDateTime))

/-- The while-loop of generateAvailableSlots (src/appointment.js lines 251-286),
with an explicit fuel argument bounding the number of iterations so that the
recursion is structural; the loop itself advances currentMinutes by 30 while
currentMinutes + 30 <= endMinutes, emitting the slot when it is available. -/
def genSlotsAux (busy : List TimeInterval) (appts : List Appointment) :
    Nat → Nat → Nat → List TimeInterval
  | 0, _, _ => []
  | fuel + 1, currentMinutes, endMinutes =>
    if currentMinutes + 30 ≤ endMinutes then
      let rest := genSlotsAux busy appts fuel (currentMinutes + 30) endMinutes
      if isSlotConflicting currentMinutes (currentMinutes + 30) busy appts then
        rest
      else
        ⟨currentMinutes, currentMinutes + 30⟩ :: rest
    else []

/-- generateAvailableSlots (src/appointment.js lines 242-289) on the hour and
minute components of the "HH:MM" start/end strings.  Fuel endMinutes always
dominates the iteration count of the while loop, so the result equals the
loop's. -/
def generateAvailableSlots (startHour startMinute endHour endMinute : Nat)
    (busyPeriods : List TimeInterval) (existingAppointments : List Appointment) : List TimeInterval :=
  genSlotsAux busyPeriods existingAppointments (endHour * 60 + endMinute)
    (startHour * 60 + startMinute) (endHour * 60 + endMinute)

/-- Digit test of the regex character class backslash-d. -/
def isDigitChar (c : Char) : Bool := decide ('0' ≤ c) && decide (c ≤ '9')

/-- Numeric value of a digit character (parseInt on the matched digits). -/
def digitVal (c : Char) : Nat := c.toNat - 48

/-- Whitespace test of the regex class backslash-s, restricted to the ASCII
whitespace characters. -/
def isSpaceChar (c : Char) : Bool :=
  c == ' ' || c == '\t' || c == '\n' || c == '\r'

/-- Case-insensitive recognition of AM or PM at the head of the character list,
returning the normalised period letter as toUpperCase does at
src/appointment.js line 481. -/
def meridiemAt : List Char → Option Char
  | a :: m :: _ =>
    if (a == 'A' || a == 'a') && (m == 'M' || m == 'm') then some 'A'
    else if (a == 'P' || a == 'p') && (m == 'M' || m == 'm') then some 'P'
    else none
  | _ => none

/-- After the hour digits: a colon, exactly two minute digits, any run of
whitespace, then AM or PM.  Returns (minute value, period letter).  The greedy
whitespace run is equivalent to dropping all whitespace because the meridiem
begins with a non-space character. -/
def matchTail (rest : List Char) : Option (Nat × Char) :=
  match rest with
  | ':' :: m1 :: m2 :: rest2 =>
    if isDigitChar m1 && isDigitChar m2 then
      match meridiemAt (rest2.dropWhile (fun c => isSpaceChar c)) with
      | some p => some (digitVal m1 * 10 + digitVal m2, p)
      | none => none
    else none
  | _ => none

/-- Attempt of the regex (d{1,2}):(d{2})s*(AM|PM) at one position: the greedy
two-digit hour is tried first and the one-digit hour on any later failure,
reproducing the backtracking of the regex engine.  Returns
(hour value, minute value, period letter). -/
def matchAt (cs : List Char) : Option (Nat × Nat × Char) :=
  match cs with
  | [] => none
  | d1 :: rest =>
    if isDigitChar d1 then
      match rest with
      | d2 :: rest2 =>
        if isDigitChar d2 then
          match matchTail rest2 with
          | some (m, p) => some (digitVal d1 * 10 + digitVal d2, m, p)
          | none =>
            match matchTail rest with
            | some (m, p) => some (digitVal d1, m, p)
            | none => none
        else
          match matchTail rest with
          | some (m, p) => some (digitVal d1, m, p)
          | none => none
      | [] => none
    else none

/-- Leftmost match of the unanchored regex: try every position from the left
(String.prototype.match scans this way). -/
def findTimeMatch : List Char → Option (Nat × Nat × Char)
  | [] => none
  | c :: rest =>
    match matchAt (c :: rest) with
    | some r => some r
    | none => findTimeMatch rest

/-- The time-slot parse of the booking route (src/appointment.js line 471):
timeSlot.match of (d{1,2}):(d{2})s*(AM|PM) with the i flag.  none models the
400 "Invalid time slot format" rejection. -/
def parseTimeSlot (s : String) : Option (Nat × Nat × Char) :=
  findTimeMatch s.data

/-- The 12-hour to 24-hour conversion of src/appointment.js lines 483-484:
PM adds 12 to hours below 12, 12 AM becomes 0, anything else is unchanged. -/
def toHour24 (hour : Nat) (period : Char) : Nat :=
  if period == 'P' && decide (hour < 12) then hour + 12
  else if period == 'A' && hour == 12 then 0
  else hour

/-- The start/end derivation of src/appointment.js lines 486-489 on the
24-hour hour and the minute value: the end hour gains one when the matched
minute string equals "30" and the end minute is then "00", otherwise the end
minute is "30" with the same hour.  Two-digit minute strings are in bijection
with the values 0 to 99, so comparing the value with 30 is the string
comparison of the source.  Returns (startDateTime, endDateTime) in minutes. -/
def deriveTimes (hour minute : Nat) : Nat × Nat :=
  let startMinutes := hour * 60 + minute
  let endHour := hour + (if minute == 30 then 1 else 0)
  let endMinuteVal := if minute == 30 then 0 else 30
  (startMinutes, endHour * 60 + endMinuteVal)

/-- JavaScript truthiness of an optional request string: absent and empty are
falsy. -/
def truthy : Option String → Bool
  | none => false
  | some s => s != ""

/-- The reasons the booking route rejects a request, in source order:
missing required fields (400), neither email nor phone (400), unknown doctor
(404), unmatched time-slot format (400), conflicting appointment (409). -/
inductive BookReject where
  | missingFields
  | missingContact
  | doctorNotFound
  | invalidTimeSlot
  | slotConflict
deriving DecidableEq

/-- Outcome of the booking route. -/
inductive BookResult where
  | rejected (reason : BookReject)
  | booked (appointment : Appointment)
deriving DecidableEq

/-- The request body fields the booking route destructures. -/
structure BookReq where
  doctorId : Option String := none
  patientName : Option String := none
  patientEmail : Option String := none
  patientPhone : Option String := none
  date : Option String := none
  timeSlot : Option String := none
deriving DecidableEq

/-- The patient lookup disjunction of src/appointment.js lines 447-452: match
on email when an email was supplied, or on phone when a phone was supplied. -/
def patientMatches (req : BookReq) (p : Patient) : Bool :=
  (truthy req.patientEmail && p.email == req.patientEmail) ||
  (truthy req.patientPhone && p.phone == req.patientPhone)

/-- Everything the booking route does before appointment.save (src/appointment.js
lines 404-512): validation, doctor lookup, patient create-or-update and save,
time-slot parse, interval derivation and the conflict findOne.  Returns the
appointment ready to insert, or the rejection, together with the stores as
they stand at that point - the patient save has already happened when the
parse or the conflict check rejects.  The uuid arguments stand for the random
uuidv4 slices. -/
def bookPhase1 (patientUuid apptUuid : String) (doctors : List Doctor) (db : DB)
    (req : BookReq) : (Except BookReject Appointment) × DB :=
  if !(truthy req.doctorId && truthy req.patientName && truthy req.date && truthy req.timeSlot) then
    (.error .missingFields, db)
  else if !(truthy req.patientEmail || truthy req.patientPhone) then
    (.error .missingContact, db)
  else
    match doctors.find? (fun d => d.doctorId == req.doctorId.getD "") with
    | none => (.error .doctorNotFound, db)
    | some doctor =>
      let existing := db.patients.find? (patientMatches req)
      let patient : Patient :=
        match existing with
        | none =>
          { patientId := "P-" ++ patientUuid, name := req.patientName.getD "",
            email := req.patientEmail, phone := req.patientPhone }
        | some p =>
          { p with
            name := req.patientName.getD "",
            email := if truthy req.patientEmail then req.patientEmail else p.email,
            phone := if truthy req.patientPhone then req.patientPhone else p.phone }
      let db1 : DB :=
        { db with patients :=
            match existing with
            | none => db.patients ++ [patient]
            | some p => db.patients.map (fun q => if q.patientId == p.patientId then patient else q) }
      match parseTimeSlot (req.timeSlot.getD "") with
      | none => (.error .invalidTimeSlot, db1)
      | some (hourRaw, minute, period) =>
        let hour := toHour24 hourRaw period
        let times := deriveTimes hour minute
        let conflictingAppointment := db1.appointments.find? (fun a =>
          a.doctorId == doctor.doctorId && a.status != "cancelled" &&
          decide (a.startDateTime < times.2) && decide (a.endDateTime > times.1))
        match conflictingAppointment with
        | some _ => (.error .slotConflict, db1)
        | none =>
          (.ok { appointmentId := "A-" ++ apptUuid, patientId := patient.patientId,
                 doctorId := doctor.doctorId, date := req.date.getD "",
                 startDateTime := times.1, endDateTime := times.2,
                 status := "confirmed" }, db1)

/-- The whole booking route run without interruption: phase one followed by
the appointment.save append. -/
def book (patientUuid apptUuid : String) (doctors : List Doctor) (db : DB)
    (req : BookReq) : BookResult × DB :=
  match bookPhase1 patientUuid apptUuid doctors db req with
  | (.error r, db1) => (.rejected r, db1)
  | (.ok a, db1) => (.booked a, { db1 with appointments := db1.appointments ++ [a] })

/-- Conversion of a phase-one outcome into the route outcome. -/
def resultFromPhase : Except BookReject Appointment → BookResult
  | .error r => .rejected r
  | .ok a => .booked a

/-- Two concurrent booking requests interleaved as
check-A, check-B, save-A, save-B.  Every await of the handler is a yield
point and nothing orders the conflict findOne of one request before the
appointment.save of the other, so this interleaving is reachable: both
conflict checks run against the ledger before either insert. -/
def raceTwo (doctors : List Doctor) (db0 : DB) (r1 r2 : BookReq) :
    BookResult × BookResult × DB :=
  let p1 := bookPhase1 "11111111" "aaaaaaaa" doctors db0 r1
  let p2 := bookPhase1 "22222222" "bbbbbbbb" doctors p1.2 r2
  let db3 := match p1.1 with
    | .ok a => { p2.2 with appointments := p2.2.appointments ++ [a] }
    | .error _ => p2.2
  let db4 := match p2.1 with
    | .ok a => { db3 with appointments := db3.appointments ++ [a] }
    | .error _ => db3
  (resultFromPhase p1.1, resultFromPhase p2.1, db4)

/-- Outcome of the cancel route (src/appointment.js lines 817-843). -/
inductive CancelResult where
  | notFound
  | alreadyCancelled
  | cancelledOk (appointmentId : String)
deriving DecidableEq

/-- The cancel route: find the appointment; 404 when absent; 400
"Appointment already cancelled" when its status is already cancelled; else
flip the status to cancelled and save.  appointmentIds are unique in the
store, so replacing every record carrying the id models the save of the
found document. -/
def cancelAppointment (db : DB) (appointmentIdParam : String) : CancelResult × DB :=
  match db.appointments.find? (fun a => a.appointmentId == appointmentIdParam) with
  | none => (.notFound, db)
  | some appointment =>
    if appointment.status == "cancelled" then (.alreadyCancelled, db)
    else
      (.cancelledOk appointment.appointmentId,
       { db with appointments := db.appointments.map (fun a =>
           if a.appointmentId == appointmentIdParam then { a with status := "cancelled" } else a) })

/-- getFreeBusy (src/google.js lines 102-144): when the integration is not
configured it returns an empty busy list; when the API call fails it catches
and returns an empty busy list; when the response carries no data for the
calendar it returns an empty busy list; otherwise the reported busy periods.
The api argument stands for the outcome of the freebusy query: an error, a
response without the calendar, or the busy periods. -/
def getFreeBusy (configured : Bool)
    (api : Except String (Option (List TimeInterval))) : List TimeInterval :=
  if !configured then []
  else
    match api with
    | .error _ => []
    | .ok none => []
    | .ok (some busy) => busy

/-- Outcome of the availability route.  The empty-slot branch for a day
without a working window is a success response with an empty list (its JSON
message field is dropped here). -/
inductive AvailResult where
  | badRequest (msg : String)
  | notFound
  | success (slots : List TimeInterval)
  | serverError (msg : String)
deriving DecidableEq

/-- The weekday computation of src/appointment.js line 339:
new Date(date).toLocaleDateString of en-US with the option weekday set to the
string lowercase.  ECMA-402 GetOption admits only narrow, short and long for
the weekday option and throws a RangeError on any other value, so this call
throws for every date; the surrounding try/catch of the route turns that into
a 500 response. -/
def toLocaleWeekdayLowercase (_date : String) : Except String String :=
  .error "RangeError: Value lowercase out of range for options property weekday"

/-- The availability route below the weekday computation (src/appointment.js
lines 340-393), taking the weekday name as an argument: window lookup with the
empty-slot branch, best-effort busy-period fetch when a calendarId is set,
the non-cancelled same-day appointment query, and slot generation. -/
def availabilityAfterWeekday (doctor : Doctor) (dayOfWeek : String) (configured : Bool)
    (calApi : Except String (Option (List TimeInterval)))
    (store : List Appointment) (date : String) : AvailResult :=
  match doctor.availability.find? (fun p => p.1 == dayOfWeek) with
  | none => .success []
  | some p =>
    if !p.2.available then .success []
    else
      let busyPeriods : List TimeInterval :=
        match doctor.calendarId with
        | some cid => if cid != "" then getFreeBusy configured calApi else []
        | none => []
      let existingAppointments := store.filter (fun a =>
        a.doctorId == doctor.doctorId && a.date == date && a.status != "cancelled")
      .success (generateAvailableSlots p.2.startHour p.2.startMinute p.2.endHour p.2.endMinute
        busyPeriods existingAppointments)

/-- The availability route (src/appointment.js lines 325-399): date presence
check, doctor lookup, the weekday computation (which throws), then the rest. -/
def getAvailability (doctors : List Doctor) (store : List Appointment) (configured : Bool)
    (calApi : Except String (Option (List TimeInterval)))
    (doctorIdParam : String) (dateBody : Option String) : AvailResult :=
  match dateBody with
  | none => .badRequest "Date is required (format: YYYY-MM-DD)"
  | some date =>
    if date == "" then .badRequest "Date is required (format: YYYY-MM-DD)"
    else
      match doctors.find? (fun d => d.doctorId == doctorIdParam) with
      | none => .notFound
      | some doctor =>
        match toLocaleWeekdayLowercase date with
        | .error e => .serverError e
        | .ok dayOfWeek => availabilityAfterWeekday doctor dayOfWeek configured calApi store date

/-- The claim's availability filtering rule, written from the specification
wording: a candidate is retained iff it overlaps no busy period and no
reservation restricted to status confirmed.  It exists only to be compared
with the code's rule, whose appointment query keeps every non-cancelled
status instead (src/appointment.js line 369). -/
def specConfirmedOnlyAvailability (startHour startMinute endHour endMinute : Nat)
    (busyPeriods : List TimeInterval) (store : List Appointment)
    (doctorId date : String) : List TimeInterval :=
  generateAvailableSlots startHour startMinute endHour endMinute busyPeriods
    (store.filter (fun a => a.doctorId == doctorId && a.date == date && a.status == "confirmed"))

/-- Fixture: a doctor with a linked calendar who works 09:00 to 11:00 on
mondays. -/
def drMonday : Doctor :=
  { doctorId := "D1", calendarId := some "cal-D1",
    availability := [("monday",
      { available := true, startHour := 9, startMinute := 0, endHour := 11, endMinute := 0 })] }

/-- Fixture: a doctor whose monday entry is marked unavailable. -/
def drMondayOff : Doctor :=
  { doctorId := "D1", calendarId := none,
    availability := [("monday",
      { available := false, startHour := 9, startMinute := 0, endHour := 11, endMinute := 0 })] }

/-- Fixture: a confirmed reservation 10:30 to 11:00 for doctor D1. -/
def apptConfirmed1030 : Appointment :=
  { appointmentId := "A-exist", patientId := "P-exist", doctorId := "D1",
    date := "2025-01-06", startDateTime := 630, endDateTime := 660, status := "confirmed" }

/-- Fixture: a reservation 10:00 to 10:30 for doctor D1 carrying the schema
default status Booked. -/
def apptBooked1000 : Appointment :=
  { appointmentId := "A-booked", patientId := "P-b", doctorId := "D1",
    date := "2025-01-06", startDateTime := 600, endDateTime := 630 }

/-- Fixture: an already-cancelled reservation. -/
def apptCancelledA1 : Appointment :=
  { appointmentId := "A-1", patientId := "P-1", doctorId := "D1",
    date := "2025-01-06", startDateTime := 600, endDateTime := 630, status := "cancelled" }

/-- Fixture: empty stores. -/
def dbEmpty : DB := { patients := [], appointments := [] }

/-- Fixture: the ledger holding only the confirmed 10:30 to 11:00 reservation. -/
def dbExisting : DB := { patients := [], appointments := [apptConfirmed1030] }

/-- Fixture: the ledger holding only the cancelled reservation A-1. -/
def dbCancelled : DB := { patients := [], appointments := [apptCancelledA1] }

/-- Fixture: a complete booking request for 10:00 AM. -/
def reqAlice1000 : BookReq :=
  { doctorId := some "D1", patientName := some "Alice",
    patientEmail := some "alice@example.com", date := some "2025-01-06",
    timeSlot := some "10:00 AM" }

/-- Fixture: a second complete booking request for the same 10:00 AM slot. -/
def reqBob1000 : BookReq :=
  { doctorId := some "D1", patientName := some "Bob",
    patientEmail := some "bob@example.com", date := some "2025-01-06",
    timeSlot := some "10:00 AM" }

/-- Fixture: a booking request for 11:00 AM. -/
def reqAlice1100 : BookReq :=
  { doctorId := some "D1", patientName := some "Alice",
    patientEmail := some "alice@example.com", date := some "2025-01-06",
    timeSlot := some "11:00 AM" }

/-- Fixture: a booking request whose slot starts at 10:15 AM. -/
def reqCarol1015 : BookReq :=
  { doctorId := some "D1", patientName := some "Carol",
    patientEmail := some "carol@example.com", date := some "2025-01-06",
    timeSlot := some "10:15 AM" }

/-- Fixture: a booking request whose slot string carries hour zero. -/
def reqEve030 : BookReq :=
  { doctorId := some "D1", patientName := some "Eve",
    patientEmail := some "eve@example.com", date := some "2025-01-06",
    timeSlot := some "0:30 AM" }

/-- Fixture: a booking request with an unparsable time slot. -/
def reqBadSlot : BookReq :=
  { doctorId := some "D1", patientName := some "Dave",
    patientEmail := some "dave@example.com", date := some "2025-01-06",
    timeSlot := some "at noon" }

/-- Fixture: a booking request missing every required field. -/
def reqMissing : BookReq := {}

/-- The patient record the race's first request creates. -/
def patAlice : Patient :=
  { patientId := "P-11111111", name := "Alice", email := some "alice@example.com", phone := none }

/-- The patient record the race's second request creates. -/
def patBob : Patient :=
  { patientId := "P-22222222", name := "Bob", email := some "bob@example.com", phone := none }

/-- The patient record the invalid-slot request creates before being rejected. -/
def patDave : Patient :=
  { patientId := "P-44444444", name := "Dave", email := some "dave@example.com", phone := none }

/-- The appointment the race's first request inserts. -/
def apptRace1 : Appointment :=
  { appointmentId := "A-aaaaaaaa", patientId := "P-11111111", doctorId := "D1",
    date := "2025-01-06", startDateTime := 600, endDateTime := 630, status := "confirmed" }

/-- The appointment the race's second request inserts. -/
def apptRace2 : Appointment :=
  { appointmentId := "A-bbbbbbbb", patientId := "P-22222222", doctorId := "D1",
    date := "2025-01-06", startDateTime := 600, endDateTime := 630, status := "confirmed" }

/-- Fixture: doctor D1 working mondays 09:00 to 11:00 with no linked
calendar. -/
def drMondayNoCal : Doctor :=
  { doctorId := "D1", calendarId := none,
    availability := [("monday",
      { available := true, startHour := 9, startMinute := 0, endHour := 11, endMinute := 0 })] }

/-- The appointment the 10:15 AM booking inserts: only fifteen minutes long. -/
def apptCarol1015 : Appointment :=
  { appointmentId := "A-gggggggg", patientId := "P-77777777", doctorId := "D1",
    date := "2025-01-06", startDateTime := 615, endDateTime := 630, status := "confirmed" }

/-- The appointment the hour-zero booking inserts: 00:30 to 01:00. -/
def apptEve030 : Appointment :=
  { appointmentId := "A-ffffffff", patientId := "P-66666666", doctorId := "D1",
    date := "2025-01-06", startDateTime := 30, endDateTime := 60, status := "confirmed" }

/-- With no busy periods and no appointments the loop materialises every
30-minute candidate: closed form of genSlotsAux under adequate fuel. -/
theorem genSlotsAux_closedForm (fuel : Nat) :
    ∀ currentMinutes endMinutes, endMinutes ≤ currentMinutes + 30 * fuel →
      genSlotsAux [] [] fuel currentMinutes endMinutes =
        (List.range ((endMinutes - currentMinutes) / 30)).map
          (fun k => (⟨currentMinutes + 30 * k, currentMinutes + 30 * k + 30⟩ : TimeInterval)) := by
  induction fuel with
  | zero =>
    intro c e h
    have hz : (e - c) / 30 = 0 := by omega
    simp [genSlotsAux, hz]
  | succ n ih =>
    intro c e h
    by_cases h30 : c + 30 ≤ e
    · have hconf : isSlotConflicting c (c + 30) [] [] = false := rfl
      have hdiv : (e - c) / 30 = (e - (c + 30)) / 30 + 1 := by
        have h1 : (30 : Nat) ≤ e - c := by omega
        have h2 := Nat.div_eq_sub_div (by norm_num : (0 : Nat) < 30) h1
        have h3 : e - c - 30 = e - (c + 30) := by omega
        rw [h2, h3]
      rw [show genSlotsAux [] [] (n + 1) c e =
            (if c + 30 ≤ e then
              if isSlotConflicting c (c + 30) [] [] then
                genSlotsAux [] [] n (c + 30) e
              else ⟨c, c + 30⟩ :: genSlotsAux [] [] n (c + 30) e
            else []) from rfl,
          if_pos h30, hconf, if_neg (by simp), ih (c + 30) e (by omega), hdiv,
          List.range_succ_eq_map, List.map_cons, List.map_map]
      refine congrArg₂ _ (by simp) (List.map_congr_left ?_)
      intro k _
      simp only [Function.comp_apply, Nat.succ_eq_add_one, TimeInterval.mk.injEq]
      omega
    · have hz : (e - c) / 30 = 0 := by
        have : e - c < 30 := by omega
        exact Nat.div_eq_of_lt this
      rw [show genSlotsAux [] [] (n + 1) c e =
            (if c + 30 ≤ e then
              if isSlotConflicting c (c + 30) [] [] then
                genSlotsAux [] [] n (c + 30) e
              else ⟨c, c + 30⟩ :: genSlotsAux [] [] n (c + 30) e
            else []) from rfl,
          if_neg h30, hz]
      simp

/-- Membership characterisation of the loop with arbitrary busy periods and
appointments: a slot is produced iff it is some 30-minute candidate that fits
before endMinutes and is not conflicting. -/
theorem genSlotsAux_mem (busy : List TimeInterval) (appts : List Appointment) (fuel : Nat) :
    ∀ currentMinutes endMinutes (slot : TimeInterval),
      endMinutes ≤ currentMinutes + 30 * fuel →
      (slot ∈ genSlotsAux busy appts fuel currentMinutes endMinutes ↔
        ∃ k, slot = ⟨currentMinutes + 30 * k, currentMinutes + 30 * k + 30⟩ ∧
             currentMinutes + 30 * k + 30 ≤ endMinutes ∧
             isSlotConflicting (currentMinutes + 30 * k) (currentMinutes + 30 * k + 30)
               busy appts = false) := by
  induction fuel with
  | zero =>
    intro c e slot h
    simp only [genSlotsAux, List.not_mem_nil, false_iff]
    rintro ⟨k, _, hk, _⟩
    omega
  | succ n ih =>
    intro c e slot h
    have hstep : genSlotsAux busy appts (n + 1) c e =
        (if c + 30 ≤ e then
          if isSlotConflicting c (c + 30) busy appts then
            genSlotsAux busy appts n (c + 30) e
          else ⟨c, c + 30⟩ :: genSlotsAux busy appts n (c + 30) e
        else []) := rfl
    by_cases h30 : c + 30 ≤ e
    · have ihs := ih (c + 30) e slot (by omega)
      by_cases hc : isSlotConflicting c (c + 30) busy appts = true
      · rw [hstep, if_pos h30, if_pos hc, ihs]
        constructor
        · rintro ⟨k, hslot, hk2, hk3⟩
          refine ⟨k + 1, ?_, ?_, ?_⟩
          · rw [hslot]; simp only [TimeInterval.mk.injEq]; omega
          · omega
          · have e1 : c + 30 * (k + 1) = c + 30 + 30 * k := by omega
            first
            | exact hk3
            | (rw [e1]; exact hk3)
        · rintro ⟨k, hslot, hk2, hk3⟩
          cases k with
          | zero =>
            exfalso
            simp only [Nat.mul_zero, Nat.add_zero] at hk3
            rw [hk3] at hc
            exact Bool.false_ne_true hc
          | succ j =>
            refine ⟨j, ?_, ?_, ?_⟩
            · rw [hslot]; simp only [TimeInterval.mk.injEq]; omega
            · omega
            · have e1 : c + 30 + 30 * j = c + 30 * (j + 1) := by omega
              first
              | exact hk3
              | (rw [e1]; exact hk3)
      · have hc2 : isSlotConflicting c (c + 30) busy appts = false := by
          revert hc; cases isSlotConflicting c (c + 30) busy appts <;> simp
        rw [hstep, if_pos h30, if_neg (by simp [hc2]), List.mem_cons, ihs]
        constructor
        · rintro (rfl | ⟨k, hslot, hk2, hk3⟩)
          · refine ⟨0, by simp, ?_, ?_⟩
            · omega
            · simpa using hc2
          · refine ⟨k + 1, ?_, ?_, ?_⟩
            · rw [hslot]; simp only [TimeInterval.mk.injEq]; omega
            · omega
            · have e1 : c + 30 * (k + 1) = c + 30 + 30 * k := by omega
              first
              | exact hk3
              | (rw [e1]; exact hk3)
        · rintro ⟨k, hslot, hk2, hk3⟩
          cases k with
          | zero =>
            refine Or.inl ?_
            rw [hslot]
            simp
          | succ j =>
            refine Or.inr ⟨j, ?_, ?_, ?_⟩
            · rw [hslot]; simp only [TimeInterval.mk.injEq]; omega
            · omega
            · have e1 : c + 30 + 30 * j = c + 30 * (j + 1) := by omega
              first
              | exact hk3
              | (rw [e1]; exact hk3)
    · rw [hstep, if_neg h30]
      simp only [List.not_mem_nil, false_iff]
      rintro ⟨k, _, hk, _⟩
      omega

/-- The fuel supplied by generateAvailableSlots is always adequate. -/
theorem generateAvailableSlots_eq_aux (startHour startMinute endHour endMinute : Nat)
    (busy : List TimeInterval) (appts : List Appointment) :
    generateAvailableSlots startHour startMinute endHour endMinute busy appts =
      genSlotsAux busy appts (endHour * 60 + endMinute)
        (startHour * 60 + startMinute) (endHour * 60 + endMinute) := rfl

/-- Unfolding of the conflict test into the two no-overlap conditions. -/
theorem isSlotConflicting_eq_false_iff (s e : Nat) (busy : List TimeInterval)
    (appts : List Appointment) :
    isSlotConflicting s e busy appts = false ↔
      (∀ b ∈ busy, ¬(s < b.«end» ∧ b.start < e)) ∧
      (∀ a ∈ appts, ¬(s < a.endDateTime ∧ a.startDateTime < e)) := by
  unfold isSlotConflicting
  rw [Bool.or_eq_false_iff]
  constructor
  · rintro ⟨hb, ha⟩
    rw [List.any_eq_false] at hb
    rw [List.any_eq_false] at ha
    refine ⟨fun b hbm hc => ?_, fun a ham hc => ?_⟩
    · exact hb b hbm (by simp [hc.1, hc.2])
    · exact ha a ham (by simp [hc.1, hc.2])
  · rintro ⟨hb, ha⟩
    constructor
    · rw [List.any_eq_false]
      intro b hbm hc
      simp only [Bool.and_eq_true, decide_eq_true_eq] at hc
      exact hb b hbm ⟨hc.1, hc.2⟩
    · rw [List.any_eq_false]
      intro a ham hc
      simp only [Bool.and_eq_true, decide_eq_true_eq] at hc
      exact ha a ham ⟨hc.1, hc.2⟩

/-- C1: under two concurrent BookSlot calls for the same doctor and interval,
interleaved as check-check-save-save, both calls succeed and the ledger ends
with two distinct confirmed overlapping appointments for doctor D1 - the
booking route's findOne-then-save has no lock, transaction or uniqueness
constraint, so it does not serialize concurrent bookings and the claimed
exactly-one-success outcome fails. -/
theorem C1_race_double_books :
    raceTwo [drMonday] dbEmpty reqAlice1000 reqBob1000 =
      (BookResult.booked apptRace1, BookResult.booked apptRace2,
        { patients := [patAlice, patBob], appointments := [apptRace1, apptRace2] }) ∧
    apptRace1.doctorId = apptRace2.doctorId ∧
    apptRace1.status = "confirmed" ∧
    apptRace2.status = "confirmed" ∧
    decide (apptRace1 = apptRace2) = false ∧
    apptRace1.startDateTime < apptRace2.endDateTime ∧
    apptRace2.startDateTime < apptRace1.endDateTime := by
  decide

/-- The appointment the abutting 10:00 AM booking against the 10:30 ledger
inserts. -/
def apptAbutBefore : Appointment :=
  { appointmentId := "A-cccccccc", patientId := "P-33333333", doctorId := "D1",
    date := "2025-01-06", startDateTime := 600, endDateTime := 630, status := "confirmed" }

/-- The appointment the abutting 11:00 AM booking against the 10:30 ledger
inserts. -/
def apptAbutAfter : Appointment :=
  { appointmentId := "A-cccccccc", patientId := "P-33333333", doctorId := "D1",
    date := "2025-01-06", startDateTime := 660, endDateTime := 690, status := "confirmed" }

/-- C2: interval overlap is half-open - a slot conflicts with a busy period or
appointment exactly when start1 < end2 and end1 > start2, so an interval
sharing only an endpoint never conflicts; consequently BookSlot accepts a
request whose interval exactly abuts an existing confirmed reservation on
either side. -/
theorem C2_half_open_overlap :
    (∀ (s e : Nat) (b : TimeInterval),
       isSlotConflicting s e [b] [] = (decide (s < b.«end») && decide (e > b.start))) ∧
    (∀ (s e : Nat) (a : Appointment),
       isSlotConflicting s e [] [a] =
         (decide (s < a.endDateTime) && decide (e > a.startDateTime))) ∧
    (∀ (s e : Nat) (b : TimeInterval), b.«end» = s ∨ b.start = e →
       isSlotConflicting s e [b] [] = false) ∧
    (∀ (s e : Nat) (a : Appointment), a.endDateTime = s ∨ a.startDateTime = e →
       isSlotConflicting s e [] [a] = false) ∧
    (book "33333333" "cccccccc" [drMonday] dbExisting reqAlice1000).1 =
      BookResult.booked apptAbutBefore ∧
    (book "33333333" "cccccccc" [drMonday] dbExisting reqAlice1100).1 =
      BookResult.booked apptAbutAfter := by
  refine ⟨?_, ?_, ?_, ?_, by decide, by decide⟩
  · intro s e b
    simp [isSlotConflicting]
  · intro s e a
    simp [isSlotConflicting]
  · intro s e b h
    rcases h with h | h <;> simp [isSlotConflicting, h]
  · intro s e a h
    rcases h with h | h <;> simp [isSlotConflicting, h]

/-- Witness for C2 at a concrete abutting pair: the slot 10:00 to 10:30 does
not conflict with a busy period ending exactly at 10:00. -/
theorem C2_witness : isSlotConflicting 600 630 [⟨570, 600⟩] [] = false :=
  C2_half_open_overlap.2.2.1 600 630 ⟨570, 600⟩ (Or.inl rfl)

/-- C3: slot generation with no busy periods and no appointments is a
deterministic pure function of the working window: it emits exactly
(end - start) / 30 consecutive gap-free 30-minute slots in chronological
order starting at the window start, and every emitted slot ends at or before
the window end, so no trailing partial slot appears. -/
theorem C3_slot_generation (startHour startMinute endHour endMinute : Nat) :
    (generateAvailableSlots startHour startMinute endHour endMinute [] []).length =
      ((endHour * 60 + endMinute) - (startHour * 60 + startMinute)) / 30 ∧
    (∀ i (h : i < (generateAvailableSlots startHour startMinute endHour endMinute [] []).length),
       (generateAvailableSlots startHour startMinute endHour endMinute [] []).get ⟨i, h⟩ =
         ⟨startHour * 60 + startMinute + 30 * i, startHour * 60 + startMinute + 30 * i + 30⟩) ∧
    (∀ slot ∈ generateAvailableSlots startHour startMinute endHour endMinute [] [],
       slot.«end» ≤ endHour * 60 + endMinute) := by
  have hcf := genSlotsAux_closedForm (endHour * 60 + endMinute)
    (startHour * 60 + startMinute) (endHour * 60 + endMinute) (by omega)
  have hgen : generateAvailableSlots startHour startMinute endHour endMinute [] [] =
      (List.range (((endHour * 60 + endMinute) - (startHour * 60 + startMinute)) / 30)).map
        (fun k => (⟨startHour * 60 + startMinute + 30 * k,
          startHour * 60 + startMinute + 30 * k + 30⟩ : TimeInterval)) := hcf
  refine ⟨?_, ?_, ?_⟩
  · rw [hgen]
    simp
  · intro i h
    rw [List.get_eq_getElem]
    have h2 : i < ((List.range (((endHour * 60 + endMinute) -
        (startHour * 60 + startMinute)) / 30)).map
        (fun k => (⟨startHour * 60 + startMinute + 30 * k,
          startHour * 60 + startMinute + 30 * k + 30⟩ : TimeInterval))).length := by
      rw [← hgen]; exact h
    simp only [hgen]
    rw [List.getElem_map, List.getElem_range]
  · intro slot hmem
    rw [hgen] at hmem
    rcases List.mem_map.mp hmem with ⟨k, hk, rfl⟩
    rw [List.mem_range] at hk
    have h30 := Nat.div_mul_le_self ((endHour * 60 + endMinute) -
      (startHour * 60 + startMinute)) 30
    simp only []
    omega

/-- Witness for C3: the 09:00 to 11:00 window yields slot number one as
09:30 to 10:00. -/
theorem C3_witness :
    (generateAvailableSlots 9 0 11 0 [] []).get ⟨1, by decide⟩ = ⟨570, 600⟩ := by
  have h := (C3_slot_generation 9 0 11 0).2.1 1 (by decide)
  simpa using h

/-- C4 (amended): availability filtering retains a candidate slot iff it
overlaps no busy period and no reservation of that doctor and date whose
status differs from cancelled (the appointment query keeps every non-cancelled
status, not only status confirmed); and on the concrete scenario - working
hours 09:00 to 11:00, busy period 09:30 to 10:00, confirmed reservation 10:30
to 11:00 - the filtering returns exactly the slots 09:00 to 09:30 and 10:00
to 10:30. -/
theorem C4_filtering_rule :
    (∀ (startHour startMinute endHour endMinute : Nat) (busyPeriods : List TimeInterval)
       (store : List Appointment) (doctorId date : String) (slot : TimeInterval),
       slot ∈ generateAvailableSlots startHour startMinute endHour endMinute busyPeriods
         (store.filter (fun a =>
           a.doctorId == doctorId && a.date == date && a.status != "cancelled")) ↔
         ((∃ k, slot = ⟨startHour * 60 + startMinute + 30 * k,
                        startHour * 60 + startMinute + 30 * k + 30⟩ ∧
                startHour * 60 + startMinute + 30 * k + 30 ≤ endHour * 60 + endMinute) ∧
          (∀ b ∈ busyPeriods, ¬(slot.start < b.«end» ∧ b.start < slot.«end»)) ∧
          (∀ a ∈ store, a.doctorId = doctorId → a.date = date → a.status ≠ "cancelled" →
             ¬(slot.start < a.endDateTime ∧ a.startDateTime < slot.«end»)))) ∧
    availabilityAfterWeekday drMonday "monday" true (Except.ok (some [⟨570, 600⟩]))
      [apptConfirmed1030] "2025-01-06" = AvailResult.success [⟨540, 570⟩, ⟨600, 630⟩] := by
  constructor
  · intro sh sm eh em busy store d dt slot
    rw [generateAvailableSlots_eq_aux,
        genSlotsAux_mem busy
          (store.filter (fun a => a.doctorId == d && a.date == dt && a.status != "cancelled"))
          (eh * 60 + em) (sh * 60 + sm) (eh * 60 + em) slot (by omega)]
    constructor
    · rintro ⟨k, hslot, hle, hconf⟩
      rw [isSlotConflicting_eq_false_iff] at hconf
      refine ⟨⟨k, hslot, hle⟩, ?_, ?_⟩
      · intro b hb
        rw [hslot]
        exact hconf.1 b hb
      · intro a ha h1 h2 h3
        rw [hslot]
        refine hconf.2 a ?_
        rw [List.mem_filter]
        exact ⟨ha, by simp [h1, h2, h3]⟩
    · rintro ⟨⟨k, hslot, hle⟩, hbusy, hstore⟩
      refine ⟨k, hslot, hle, ?_⟩
      rw [isSlotConflicting_eq_false_iff]
      constructor
      · intro b hb
        have hh := hbusy b hb
        rw [hslot] at hh
        exact hh
      · intro a ha
        rw [List.mem_filter] at ha
        have hcond := ha.2
        simp only [Bool.and_eq_true, beq_iff_eq, bne_iff_ne, ne_eq] at hcond
        have hh := hstore a ha.1 hcond.1.1 hcond.1.2 hcond.2
        rw [hslot] at hh
        exact hh
  · decide

/-- Counterexample for C4 as stated: a reservation carrying the schema default
status Booked does block a slot under the code's non-cancelled filter, while
the claim's confirmed-only rule would keep the 10:00 to 10:30 slot. -/
theorem C4_counterexample :
    availabilityAfterWeekday drMondayNoCal "monday" false (Except.ok none)
      [apptBooked1000] "2025-01-06" =
      AvailResult.success [⟨540, 570⟩, ⟨570, 600⟩, ⟨630, 660⟩] ∧
    specConfirmedOnlyAvailability 9 0 11 0 [] [apptBooked1000] "D1" "2025-01-06" =
      [⟨540, 570⟩, ⟨570, 600⟩, ⟨600, 630⟩, ⟨630, 660⟩] := by
  decide

/-- Witness for C4 at a concrete input: the 09:00 slot survives filtering
against the confirmed 10:30 reservation. -/
theorem C4_witness :
    (⟨540, 570⟩ : TimeInterval) ∈ generateAvailableSlots 9 0 11 0 []
      ([apptConfirmed1030].filter (fun a =>
        a.doctorId == "D1" && a.date == "2025-01-06" && a.status != "cancelled")) :=
  (C4_filtering_rule.1 9 0 11 0 [] [apptConfirmed1030] "D1" "2025-01-06" ⟨540, 570⟩).mpr
    ⟨⟨0, by decide, by decide⟩, by decide, by decide⟩

/-- C5: the busy-period collaborator degrades to an empty list when
unconfigured, when the freebusy call fails, and when the response lacks the
calendar, and the availability logic downstream of the weekday computation
then serves ledger-only slots; the full route nevertheless answers 500 for
every request because the weekday computation itself throws (see C9), so the
claimed non-error response is unreachable. -/
theorem C5_calendar_degradation :
    getFreeBusy true (Except.error "quota exceeded") = [] ∧
    getFreeBusy true (Except.ok none) = [] ∧
    getFreeBusy false (Except.ok (some [⟨570, 600⟩])) = [] ∧
    availabilityAfterWeekday drMonday "monday" true (Except.error "quota exceeded")
      [apptConfirmed1030] "2025-01-06" =
      AvailResult.success [⟨540, 570⟩, ⟨570, 600⟩, ⟨600, 630⟩] ∧
    availabilityAfterWeekday drMonday "monday" false (Except.ok (some [⟨570, 600⟩]))
      [apptConfirmed1030] "2025-01-06" =
      AvailResult.success [⟨540, 570⟩, ⟨570, 600⟩, ⟨600, 630⟩] ∧
    getAvailability [drMonday] [apptConfirmed1030] true (Except.error "quota exceeded") "D1"
      (some "2025-01-06") =
      AvailResult.serverError
        "RangeError: Value lowercase out of range for options property weekday" := by
  decide

/-- C9: the route answers DoctorNotFound exactly for an unknown doctorId, and
the empty-slot branch for an absent or unavailable weekday entry does return a
success response with an empty list - but for every known doctor the route
throws before reaching it, because toLocaleDateString is called with the
invalid weekday option lowercase, so the claimed empty-slot success is never
produced and the route answers 500 instead. -/
theorem C9_availability_route :
    getAvailability [drMondayOff] [] false (Except.ok none) "D9" (some "2025-01-06") =
      AvailResult.notFound ∧
    getAvailability [drMondayOff] [] false (Except.ok none) "D1" (some "2025-01-06") =
      AvailResult.serverError
        "RangeError: Value lowercase out of range for options property weekday" ∧
    availabilityAfterWeekday drMondayOff "monday" false (Except.ok none) [] "2025-01-06" =
      AvailResult.success [] ∧
    availabilityAfterWeekday drMondayOff "tuesday" false (Except.ok none) [] "2025-01-06" =
      AvailResult.success [] := by
  decide

/-- Counterexample for C6 as stated: cancelling the already-cancelled
reservation A-1 yields the 400 rejection "Appointment already cancelled"
(modelled alreadyCancelled), not a success acknowledgement; the stored state
is unchanged. -/
theorem C6_counterexample :
    cancelAppointment dbCancelled "A-1" = (CancelResult.alreadyCancelled, dbCancelled) := by
  decide

/-- C6 (amended): cancelling an unknown reservation answers ReservationNotFound
with the state unchanged, and cancelling an already-cancelled reservation
leaves the stored state identical and performs no write but answers the 400
rejection "Appointment already cancelled" rather than a success
acknowledgement. -/
theorem C6_cancel_behaviour (db : DB) (idParam : String) :
    (db.appointments.find? (fun a => a.appointmentId == idParam) = none →
       cancelAppointment db idParam = (CancelResult.notFound, db)) ∧
    (∀ appointment,
       db.appointments.find? (fun a => a.appointmentId == idParam) = some appointment →
       appointment.status = "cancelled" →
       cancelAppointment db idParam = (CancelResult.alreadyCancelled, db)) := by
  constructor
  · intro h
    simp [cancelAppointment, h]
  · intro appt hfind hstatus
    simp [cancelAppointment, hfind, hstatus]

/-- Witness for C6 at a concrete input: cancelling an id absent from the store
answers ReservationNotFound and leaves the store untouched. -/
theorem C6_witness :
    cancelAppointment dbCancelled "A-9" = (CancelResult.notFound, dbCancelled) :=
  (C6_cancel_behaviour dbCancelled "A-9").1 (by decide)

/-- Every branch of the booking phase leaves the appointment ledger as it
was: only the patient store is written before appointment.save. -/
theorem bookPhase1_keeps_ledger (patientUuid apptUuid : String) (doctors : List Doctor)
    (db : DB) (req : BookReq) :
    ((bookPhase1 patientUuid apptUuid doctors db req).2).appointments = db.appointments := by
  unfold bookPhase1
  dsimp only
  repeat' split
  all_goals rfl

/-- The missing-field, missing-contact and unknown-doctor rejections happen
before the patient save, so they leave both stores exactly as they were. -/
theorem bookPhase1_early_keeps_db (patientUuid apptUuid : String) (doctors : List Doctor)
    (db : DB) (req : BookReq) :
    ((bookPhase1 patientUuid apptUuid doctors db req).1 =
        Except.error BookReject.missingFields ∨
     (bookPhase1 patientUuid apptUuid doctors db req).1 =
        Except.error BookReject.missingContact ∨
     (bookPhase1 patientUuid apptUuid doctors db req).1 =
        Except.error BookReject.doctorNotFound) →
    (bookPhase1 patientUuid apptUuid doctors db req).2 = db := by
  unfold bookPhase1
  dsimp only
  repeat' split
  all_goals intro h
  all_goals first
    | rfl
    | (rcases h with h | h | h <;> simp at h)

/-- C7 (amended): every rejected booking leaves the appointment ledger exactly
as it was, and the missing-field, missing-contact and unknown-doctor
rejections leave the whole stored state unchanged; the malformed-time-slot
and slot-conflict rejections, however, occur after the patient record has
already been created or updated and saved, so the patient store may change on
those rejections. -/
theorem C7_rejection_state (patientUuid apptUuid : String) (doctors : List Doctor) (db : DB)
    (req : BookReq) :
    (∀ reason, (book patientUuid apptUuid doctors db req).1 = BookResult.rejected reason →
       ((book patientUuid apptUuid doctors db req).2).appointments = db.appointments) ∧
    ((book patientUuid apptUuid doctors db req).1 =
        BookResult.rejected BookReject.missingFields ∨
     (book patientUuid apptUuid doctors db req).1 =
        BookResult.rejected BookReject.missingContact ∨
     (book patientUuid apptUuid doctors db req).1 =
        BookResult.rejected BookReject.doctorNotFound →
       (book patientUuid apptUuid doctors db req).2 = db) := by
  have hledger := bookPhase1_keeps_ledger patientUuid apptUuid doctors db req
  have hearly := bookPhase1_early_keeps_db patientUuid apptUuid doctors db req
  unfold book
  rcases hp : bookPhase1 patientUuid apptUuid doctors db req with ⟨res, db1⟩
  rw [hp] at hledger hearly
  cases res with
  | error r =>
    refine ⟨fun reason _ => ?_, fun h => ?_⟩
    · simpa using hledger
    · apply hearly
      rcases h with h | h | h
      · refine Or.inl ?_
        simp only [BookResult.rejected.injEq] at h
        rw [h]
      · refine Or.inr (Or.inl ?_)
        simp only [BookResult.rejected.injEq] at h
        rw [h]
      · refine Or.inr (Or.inr ?_)
        simp only [BookResult.rejected.injEq] at h
        rw [h]
  | ok a =>
    refine ⟨fun reason hr => ?_, fun h => ?_⟩
    · simp at hr
    · rcases h with h | h | h <;> simp at h

/-- Counterexample for C7 as stated: a booking rejected for a malformed time
slot has already created and saved a patient record - the patient store grows
from empty to one record while the caller receives the InvalidInterval
rejection. -/
theorem C7_counterexample :
    book "44444444" "dddddddd" [drMonday] dbEmpty reqBadSlot =
      (BookResult.rejected BookReject.invalidTimeSlot,
        { patients := [patDave], appointments := [] }) ∧
    dbEmpty = { patients := [], appointments := [] } := by
  decide

/-- Witness for C7 at a concrete input: a request missing every required
field is rejected with the stores untouched. -/
theorem C7_witness : (book "55555555" "eeeeeeee" [] dbEmpty reqMissing).2 = dbEmpty :=
  (C7_rejection_state "55555555" "eeeeeeee" [] dbEmpty reqMissing).2 (Or.inl (by decide))

/-- Counterexample for C8 as stated: the unanchored regex accepts the
malformed string with hour zero, and the booking route then books 00:30 to
01:00 from it instead of rejecting it as InvalidInterval. -/
theorem C8_counterexample :
    parseTimeSlot "0:30 AM" = some (0, 30, 'A') ∧
    (book "66666666" "ffffffff" [drMonday] dbEmpty reqEve030).1 =
      BookResult.booked apptEve030 := by
  decide

/-- C8 (amended): the parse accepts every well-formed HH:MM AM/PM string and
rejects strings containing no digit-colon-digits-meridiem substring, but it
does not validate ranges: hour 0, hours 13 to 99 and minutes 60 to 99 are
accepted, a longer digit run is matched at an interior position, and the
accepted values feed the 12-hour conversion unchanged. -/
theorem C8_parse_behaviour :
    parseTimeSlot "10:30 AM" = some (10, 30, 'A') ∧
    parseTimeSlot "12:00 am" = some (12, 0, 'A') ∧
    parseTimeSlot "1:05 pm" = some (1, 5, 'P') ∧
    parseTimeSlot "13:30 PM" = some (13, 30, 'P') ∧
    parseTimeSlot "10:75 AM" = some (10, 75, 'A') ∧
    parseTimeSlot "99:99 PM" = some (99, 99, 'P') ∧
    parseTimeSlot "123:45 AM" = some (23, 45, 'A') ∧
    parseTimeSlot "10.30 AM" = none ∧
    parseTimeSlot "morning" = none ∧
    parseTimeSlot "10:30" = none ∧
    toHour24 10 'A' = 10 ∧ toHour24 12 'A' = 0 ∧
    toHour24 1 'P' = 13 ∧ toHour24 12 'P' = 12 ∧ toHour24 13 'P' = 13 :=
  ⟨rfl, rfl, rfl, rfl, rfl, rfl, rfl, rfl, rfl, rfl, rfl, rfl, rfl, rfl, rfl⟩

/-- C10: the end of a booked interval follows the fixed rule of the source -
when the minute is 30 the end is the next full hour, otherwise the end is
half past the same hour - so the booked interval is exactly 30 minutes long
iff the start minute is 0 or 30, is shorter otherwise, and the 10:15 AM
request persists the fifteen-minute interval 10:15 to 10:30. -/
theorem C10_end_derivation (hour minute : Nat) :
    (deriveTimes hour minute).2 =
      (hour + (if minute == 30 then 1 else 0)) * 60 + (if minute == 30 then 0 else 30) ∧
    (((deriveTimes hour minute).2 : Int) - ((deriveTimes hour minute).1 : Int) = 30 ↔
       minute = 0 ∨ minute = 30) ∧
    (minute ≠ 0 → minute ≠ 30 →
       ((deriveTimes hour minute).2 : Int) - ((deriveTimes hour minute).1 : Int) < 30) ∧
    (book "77777777" "gggggggg" [drMonday] dbEmpty reqCarol1015).1 =
      BookResult.booked apptCarol1015 := by
  refine ⟨rfl, ?_, ?_, by decide⟩
  · simp only [deriveTimes]
    by_cases hm : minute = 30
    · simp only [hm]
      norm_num
      omega
    · have hm2 : (minute == 30) = false := by simp [hm]
      simp only [hm2]
      push_cast
      omega
  · intro h0 h30
    simp only [deriveTimes]
    have hm2 : (minute == 30) = false := by simp [h30]
    simp only [hm2]
    push_cast
    omega

/-- Witness for C10 at a concrete input: a start minute of 30 yields exactly
a 30-minute interval. -/
theorem C10_witness :
    ((deriveTimes 10 30).2 : Int) - ((deriveTimes 10 30).1 : Int) = 30 :=
  (C10_end_derivation 10 30).2.1.mpr (Or.inr rfl)
